import Mathlib

/-!
Verification of the four-layer stock decision engine and its supporting
infrastructure (storage, cache, fetch manager), shallowly embedded from
the Python sources of the intelligent-stock-decision repository.

Numeric modelling: Python floats are modelled as exact rationals (the
properties at issue are threshold comparisons and integer scores, which
do not depend on binary rounding).  Timestamps are naturals.  Descriptive
message strings built with numeric interpolation are modelled by the
inductive type `Msg`, one constructor per distinct message of the source,
carrying the interpolated data; this preserves the identity, count and
order of every reason / risk entry.
-/

namespace ISD

/-! ## Market detection and configuration (stock_analyzer.py) -/

/-- Market type: mainland A-share (`'A股'`) or Hong Kong (`'港股'`). -/
inductive Market where
  | aShare
  | hk
deriving DecidableEq, Repr

/-- One row of `StockTrendAnalyzer.MARKET_CONFIG`. -/
structure MarketCfg where
  bias_threshold : ℚ
  atr_multiplier : ℚ
  atr_min_pct : ℚ
  atr_max_pct : ℚ
deriving DecidableEq, Repr

/-- `StockTrendAnalyzer.MARKET_CONFIG` (stock_analyzer.py lines 169-184). -/
def marketConfig : Market → MarketCfg
  | Market.aShare => { bias_threshold := 5, atr_multiplier := 3/2, atr_min_pct := 1, atr_max_pct := 4 }
  | Market.hk => { bias_threshold := 6, atr_multiplier := 2, atr_min_pct := 1, atr_max_pct := 6 }

/-- Python `str.isdigit` restricted to ASCII digits (the only digits that occur
in stock codes; Python also accepts other Unicode decimal digits). -/
def pyIsDigit (s : String) : Bool :=
  !s.data.isEmpty && s.data.all Char.isDigit

/-- `StockTrendAnalyzer._detect_market_type`: A-share iff the code is six
characters, all digits; every other string is Hong Kong. -/
def detectMarketType (code : String) : Market :=
  if code.length == 6 && pyIsDigit code then Market.aShare else Market.hk

/-! ## Analyzer enums and input rows -/

/-- `TrendStatus` enum (STRONG_BEAR is declared in the source but never
produced by `_analyze_trend_status`). -/
inductive TrendStatus where
  | strongBull
  | bull
  | weakBull
  | consolidation
  | weakBear
  | bear
  | strongBear
deriving DecidableEq, BEq, Repr

/-- `VolumeStatus` enum. -/
inductive VolumeStatus where
  | heavyVolumeUp
  | heavyVolumeDown
  | shrinkVolumeUp
  | shrinkVolumeDown
  | normal
deriving DecidableEq, BEq, Repr

/-- `BuySignal` enum. -/
inductive BuySignal where
  | strongBuy
  | buy
  | hold
  | wait
  | sell
  | strongSell
deriving DecidableEq, BEq, Repr

/-- One row of the analyzer's input DataFrame: exactly the columns that
`StockTrendAnalyzer.analyze` reads from `df.iloc[-1]` / `df.iloc[-2]`. -/
structure Row where
  close : ℚ
  ma5 : ℚ
  ma10 : ℚ
  ma20 : ℚ
  volume_ratio : ℚ
  pct_chg : ℚ
  macd : ℚ
  macd_signal : ℚ
  macd_hist : ℚ
  rsi : ℚ
  atr : ℚ
deriving DecidableEq, Repr

/-- Placeholder row (used only as the default of total list indexing;
every theorem constrains the list to be long enough). -/
def rowDefault : Row :=
  { close := 0, ma5 := 0, ma10 := 0, ma20 := 0, volume_ratio := 0, pct_chg := 0,
    macd := 0, macd_signal := 0, macd_hist := 0, rsi := 0, atr := 0 }

/-- Reason / risk messages of the decision engine.  Each constructor stands
for one distinct message string of the source, carrying interpolated data. -/
inductive Msg where
  | trendPass (t : TrendStatus)
  | trendFail
  | noShort (t : TrendStatus)
  | biasTooHigh (bias threshold : ℚ) (m : Market)
  | biasPullback (bias : ℚ)
  | biasSafe (bias : ℚ)
  | macdGolden
  | macdDead
  | rsiOversold (r : ℚ)
  | rsiHealthy (r : ℚ)
  | rsiNearOverbought (r : ℚ)
  | rsiOverbought (r : ℚ)
  | atrHealthy (a : ℚ)
  | atrTooHigh (a : ℚ)
  | volShrinkPullback
  | volHeavyUp
  | sentVetoHead
  | sentVetoKeyword (k : String)
  | sentManyPos
  | sentPosKeyword (k : String)
  | sentSomePos
  | sentMildNeg
deriving DecidableEq, Repr

/-! ## Basic data computation (`_fill_basic_data` and friends) -/

/-- `VOLUME_SHRINK_RATIO = 0.7`. -/
def volumeShrinkRatio : ℚ := 7/10

/-- `VOLUME_HEAVY_RATIO = 1.5`. -/
def volumeHeavyRatio : ℚ := 3/2

/-- Python `abs` on rationals, written out so that it evaluates by kernel
reduction. -/
def pyAbs (x : ℚ) : ℚ :=
  if x < 0 then -x else x

/-- Python `min` on two integers, written out so that it evaluates by
kernel reduction. -/
def pyMin (a b : ℤ) : ℤ :=
  if a ≤ b then a else b

/-- Bias of close against one moving average, in percent; 0 when the MA is
not positive (the dataclass default is then kept). -/
def biasOf (close ma : ℚ) : ℚ :=
  if ma > 0 then (close - ma) / ma * 100 else 0

/-- ATR as a percentage of price; 0 unless both ATR and price are positive. -/
def atrPctOf (atr close : ℚ) : ℚ :=
  if atr > 0 ∧ close > 0 then atr / close * 100 else 0

/-- `StockTrendAnalyzer._analyze_trend_status`, branch for branch. -/
def analyzeTrendStatus (close ma5 ma10 ma20 : ℚ) : TrendStatus :=
  if close > ma5 ∧ ma5 > ma10 ∧ ma10 > ma20 ∧ ma20 > 0 then
    if ma5 - ma10 > ma10 - ma20 then TrendStatus.strongBull else TrendStatus.bull
  else if close < ma5 ∧ ma5 < ma10 ∧ ma10 < ma20 ∧ ma20 > 0 then
    TrendStatus.bear
  else if close > ma5 ∧ ma5 > ma10 ∧ ma10 > ma20 then
    TrendStatus.weakBull
  else if close < ma5 ∧ ma5 < ma10 ∧ ma10 < ma20 then
    TrendStatus.weakBear
  else
    TrendStatus.consolidation

/-- `StockTrendAnalyzer._analyze_volume` (only the status; the descriptive
`volume_trend` string carries no extra information). -/
def analyzeVolume (pct_chg vol_ratio : ℚ) : VolumeStatus :=
  if vol_ratio ≥ volumeHeavyRatio then
    if pct_chg > 0 then VolumeStatus.heavyVolumeUp else VolumeStatus.heavyVolumeDown
  else if vol_ratio ≤ volumeShrinkRatio then
    if pct_chg > 0 then VolumeStatus.shrinkVolumeUp else VolumeStatus.shrinkVolumeDown
  else
    VolumeStatus.normal

/-- `TrendAnalysisResult` (the fields the decision layers read or write;
purely descriptive strings such as `ma_alignment` / `volume_trend` and the
unused support / resistance lists are not modelled). -/
structure TrendAnalysisResult where
  code : String
  trend_status : TrendStatus
  ma5 : ℚ
  ma10 : ℚ
  ma20 : ℚ
  current_price : ℚ
  bias_ma5 : ℚ
  bias_ma10 : ℚ
  bias_ma20 : ℚ
  volume_status : VolumeStatus
  volume_ratio_5d : ℚ
  buy_signal : BuySignal
  signal_score : ℤ
  signal_reasons : List Msg
  risk_factors : List Msg
  macd : ℚ
  macd_signal : ℚ
  macd_hist : ℚ
  macd_golden_cross : Bool
  macd_bearish : Bool
  rsi : ℚ
  atr : ℚ
  atr_pct : ℚ
  market_type : Market
  sentiment_check : Bool
  sentiment_result : String
  sentiment_score : ℤ
  sentiment_reasons : List Msg
deriving DecidableEq, Repr

/-- Dataclass defaults of `TrendAnalysisResult` (rsi defaults to 50). -/
def emptyResult (code : String) : TrendAnalysisResult :=
  { code := code, trend_status := TrendStatus.consolidation,
    ma5 := 0, ma10 := 0, ma20 := 0, current_price := 0,
    bias_ma5 := 0, bias_ma10 := 0, bias_ma20 := 0,
    volume_status := VolumeStatus.normal, volume_ratio_5d := 0,
    buy_signal := BuySignal.wait, signal_score := 0,
    signal_reasons := [], risk_factors := [],
    macd := 0, macd_signal := 0, macd_hist := 0,
    macd_golden_cross := false, macd_bearish := false,
    rsi := 50, atr := 0, atr_pct := 0,
    market_type := Market.aShare, sentiment_check := false,
    sentiment_result := "", sentiment_score := 0, sentiment_reasons := [] }

/-- `StockTrendAnalyzer._fill_basic_data` on the last two rows. -/
def fillBasicData (r : TrendAnalysisResult) (latest _prev : Row) : TrendAnalysisResult :=
  { r with
    ma5 := latest.ma5, ma10 := latest.ma10, ma20 := latest.ma20,
    current_price := latest.close,
    bias_ma5 := biasOf latest.close latest.ma5,
    bias_ma10 := biasOf latest.close latest.ma10,
    bias_ma20 := biasOf latest.close latest.ma20,
    trend_status := analyzeTrendStatus latest.close latest.ma5 latest.ma10 latest.ma20,
    volume_ratio_5d := latest.volume_ratio,
    volume_status := analyzeVolume latest.pct_chg latest.volume_ratio,
    macd := latest.macd, macd_signal := latest.macd_signal, macd_hist := latest.macd_hist,
    rsi := latest.rsi, atr := latest.atr,
    atr_pct := atrPctOf latest.atr latest.close }

/-- `StockTrendAnalyzer._check_trend_filter`. -/
def checkTrendFilter (t : TrendStatus) : Bool :=
  t == TrendStatus.strongBull || t == TrendStatus.bull

/-! ## Layer 3: auxiliary indicators -/

/-- Output of `_check_auxiliary_indicators`: total score, new reasons, risks,
plus the two MACD flags the method writes into the result. -/
structure AuxOut where
  score : ℤ
  reasons : List Msg
  risks : List Msg
  golden : Bool
  bearish : Bool
deriving DecidableEq, Repr

/-- `StockTrendAnalyzer._check_auxiliary_indicators`: MACD (+10), RSI
(+15/+10), ATR (+5), volume (+10/+8), accumulating reasons and risks in
source order. -/
def checkAux (latest prev : Row) (r : TrendAnalysisResult) (base : ℤ)
    (cfg : MarketCfg) : AuxOut :=
  let golden := decide (prev.macd ≤ prev.macd_signal) && decide (latest.macd > latest.macd_signal)
  let bearish :=
    if golden then false
    else decide (prev.macd ≥ prev.macd_signal) && decide (latest.macd < latest.macd_signal)
  let s1 : ℤ := if golden then base + 10 else base
  let reasons1 : List Msg := if golden then [Msg.macdGolden] else []
  let risks1 : List Msg := if golden then [] else if bearish then [Msg.macdDead] else []
  let s2 : ℤ :=
    if r.rsi < 30 then s1 + 15 else if r.rsi < 70 then s1 + 10 else s1
  let reasons2 : List Msg :=
    if r.rsi < 30 then reasons1 ++ [Msg.rsiOversold r.rsi]
    else if r.rsi < 70 then reasons1 ++ [Msg.rsiHealthy r.rsi]
    else reasons1
  let risks2 : List Msg :=
    if r.rsi < 30 then risks1
    else if r.rsi < 70 then risks1
    else if r.rsi < 80 then risks1 ++ [Msg.rsiNearOverbought r.rsi]
    else risks1 ++ [Msg.rsiOverbought r.rsi]
  let s3 : ℤ :=
    if cfg.atr_min_pct < r.atr_pct ∧ r.atr_pct < cfg.atr_max_pct then s2 + 5 else s2
  let reasons3 : List Msg :=
    if cfg.atr_min_pct < r.atr_pct ∧ r.atr_pct < cfg.atr_max_pct then
      reasons2 ++ [Msg.atrHealthy r.atr_pct]
    else reasons2
  let risks3 : List Msg :=
    if cfg.atr_min_pct < r.atr_pct ∧ r.atr_pct < cfg.atr_max_pct then risks2
    else if r.atr_pct ≥ cfg.atr_max_pct then risks2 ++ [Msg.atrTooHigh r.atr_pct]
    else risks2
  let s4 : ℤ :=
    if r.volume_status = VolumeStatus.shrinkVolumeDown then s3 + 10
    else if r.volume_status = VolumeStatus.heavyVolumeUp then s3 + 8
    else s3
  let reasons4 : List Msg :=
    if r.volume_status = VolumeStatus.shrinkVolumeDown then reasons3 ++ [Msg.volShrinkPullback]
    else if r.volume_status = VolumeStatus.heavyVolumeUp then reasons3 ++ [Msg.volHeavyUp]
    else reasons3
  { score := s4, reasons := reasons4, risks := risks3, golden := golden, bearish := bearish }

/-! ## Layer 4: sentiment filter -/

/-- The `info` dictionary of `_check_sentiment_filter`. -/
structure SentimentInfo where
  result : String
  score : ℤ
  reasons : List Msg
  risks : List Msg
deriving DecidableEq, Repr

/-- Negative keyword table with severities (`'严重'`/`'中等'`/`'轻微'`),
in source order (Python dict literal). -/
def negativeKeywords : List (String × String) :=
  [("造假", "严重"), ("财务造假", "严重"), ("虚增利润", "严重"), ("财务违规", "严重"),
   ("亏损", "中等"), ("业绩下滑", "中等"), ("业绩暴雷", "严重"),
   ("债务", "中等"), ("债务违约", "严重"), ("资不抵债", "严重"),
   ("调查", "严重"), ("立案", "严重"), ("立案调查", "严重"),
   ("处罚", "中等"), ("罚款", "中等"), ("监管", "轻微"),
   ("退市", "严重"), ("退市风险", "严重"), ("ST", "严重"),
   ("违规", "中等"), ("违规担保", "严重"), ("内幕交易", "严重"),
   ("诉讼", "中等"), ("起诉", "中等"), ("被诉", "中等"),
   ("官司", "轻微"), ("纠纷", "轻微"),
   ("停产", "严重"), ("停产整顿", "严重"),
   ("倒闭", "严重"), ("破产", "严重"), ("破产重整", "严重"),
   ("裁员", "中等"), ("裁员风波", "中等"),
   ("政策", "轻微"), ("政策风险", "中等"),
   ("监管收紧", "中等"), ("加强监管", "中等"),
   ("暴跌", "中等"), ("大跌", "轻微"),
   ("风险", "轻微"), ("警示", "轻微"), ("风险提示", "轻微")]

/-- Positive keyword table with strengths (`'强'`/`'中等'`/`'轻微'`), in source
order; the duplicated dict key `'增持'` collapses to its first position. -/
def positiveKeywords : List (String × String) :=
  [("增长", "轻微"), ("业绩增长", "中等"), ("业绩超预期", "强"),
   ("大增", "中等"), ("暴增", "强"), ("大涨", "中等"),
   ("回购", "强"), ("股份回购", "强"), ("增持", "强"),
   ("重大合同", "中等"), ("中标", "中等"), ("订单", "轻微"),
   ("获批", "中等"), ("认证", "中等"), ("突破", "中等"),
   ("独家", "中等"), ("首发", "中等"), ("首创", "中等"),
   ("分红", "轻微"), ("派息", "轻微"), ("高送转", "中等"),
   ("调研", "轻微"), ("机构调研", "中等")]

/-- Does the character list start with the given pattern? -/
def charsStart : List Char → List Char → Bool
  | [], _ => true
  | _ :: _, [] => false
  | a :: as, b :: bs => a == b && charsStart as bs

/-- Substring search over character lists (Python `needle in haystack`). -/
def charsFind (needle : List Char) : List Char → Bool
  | [] => needle.isEmpty
  | c :: rest => charsStart needle (c :: rest) || charsFind needle rest

/-- Python substring membership `needle in haystack`. -/
def strContains (haystack needle : String) : Bool :=
  charsFind needle.data haystack.data

/-- Negative keywords found in a news text, with their severities. -/
def negativesFound (news : String) : List (String × String) :=
  negativeKeywords.filter (fun kv => strContains news kv.1)

/-- Positive keywords found in a news text, with their strengths. -/
def positivesFound (news : String) : List (String × String) :=
  positiveKeywords.filter (fun kv => strContains news kv.1)

/-- `StockTrendAnalyzer._check_sentiment_filter` (the `current_score`
parameter is accepted but never read, exactly as in the source). -/
def checkSentimentFilter (news : String) (_currentScore : ℤ) : Bool × SentimentInfo :=
  let negativeFound := negativesFound news
  let positiveFound := positivesFound news
  let hasSevereNegative := negativeFound.any (fun kv => kv.2 == "严重")
  let hasManyNegative := negativeFound.length ≥ 3
  if hasSevereNegative || hasManyNegative then
    (false,
     { result := "重大利空", score := 0, reasons := [],
       risks := Msg.sentVetoHead ::
         (negativeFound.filter (fun kv => kv.2 == "严重")).map (fun kv => Msg.sentVetoKeyword kv.1) })
  else
    let strongPositive := (positiveFound.filter (fun kv => kv.2 == "强" || kv.2 == "中等")).length
    if !positiveFound.isEmpty && strongPositive ≥ 2 then
      (true,
       { result := "明显利好", score := 5,
         reasons := Msg.sentManyPos ::
           ((positiveFound.take 3).filter (fun kv => kv.2 == "强" || kv.2 == "中等")).map
             (fun kv => Msg.sentPosKeyword kv.1),
         risks := [] })
    else if !positiveFound.isEmpty && strongPositive ≥ 1 then
      (true, { result := "轻微利好", score := 2, reasons := [Msg.sentSomePos], risks := [] })
    else if !negativeFound.isEmpty then
      (true, { result := "中性偏空", score := 0, reasons := [], risks := [Msg.sentMildNeg] })
    else
      (true, { result := "中性", score := 0, reasons := [], risks := [] })

/-! ## The four-layer `analyze` -/

/-- `df.iloc[-1]`. -/
def dfLatest (df : List Row) : Row := df.getLastD rowDefault

/-- `df.iloc[-2] if len(df) >= 2 else latest`. -/
def dfPrev (df : List Row) : Row :=
  if 2 ≤ df.length then df.getD (df.length - 2) rowDefault else dfLatest df

/-- Final-mapping step of `analyze`: clamp the score to 100 and map the
(unclamped) score to a buy signal. -/
def finalDecision (r : TrendAnalysisResult) (score : ℤ) (reasons risks : List Msg) :
    TrendAnalysisResult :=
  { r with
    signal_score := pyMin score 100,
    signal_reasons := reasons,
    risk_factors := risks,
    buy_signal :=
      if score ≥ 70 then BuySignal.strongBuy
      else if score ≥ 60 then BuySignal.buy
      else if score ≥ 40 then BuySignal.wait
      else BuySignal.wait }

/-- Layers 3 and 4 of `analyze`, entered with the layer-1/2 score of 70 and
the reasons accumulated so far. -/
def afterLayer2 (r : TrendAnalysisResult) (latest prev : Row) (cfg : MarketCfg)
    (news : Option String) (reasons2 : List Msg) : TrendAnalysisResult :=
  let aux := checkAux latest prev r 70 cfg
  let r1 := { r with macd_golden_cross := aux.golden, macd_bearish := aux.bearish }
  let reasons3 := reasons2 ++ aux.reasons
  match news with
  | none => finalDecision r1 aux.score reasons3 aux.risks
  | some ctx =>
    let si := checkSentimentFilter ctx aux.score
    let r2 :=
      { r1 with sentiment_check := true, sentiment_result := si.2.result,
                sentiment_score := si.2.score, sentiment_reasons := si.2.reasons }
    if si.1 then
      let score4 := if si.2.score > 0 then aux.score + si.2.score else aux.score
      let reasons4 := if si.2.score > 0 then reasons3 ++ si.2.reasons else reasons3
      finalDecision r2 score4 reasons4 aux.risks
    else
      { r2 with buy_signal := BuySignal.wait, signal_score := aux.score,
                signal_reasons := reasons3, risk_factors := aux.risks ++ si.2.risks }

/-- The analysis result right after `_fill_basic_data`, before the layers. -/
def baseResultOf (df : List Row) (code : String) : TrendAnalysisResult :=
  fillBasicData { emptyResult code with market_type := detectMarketType code }
    (dfLatest df) (dfPrev df)

/-- The Layer-3 outcome reached by inputs that pass Layers 1 and 2 (base
score 70). -/
def auxOf (df : List Row) (code : String) : AuxOut :=
  checkAux (dfLatest df) (dfPrev df) (baseResultOf df code) 70
    (marketConfig (detectMarketType code))

/-- `StockTrendAnalyzer.analyze`: market detection, data-sufficiency check,
then the four decision layers with their early returns. -/
def analyze (df : List Row) (code : String) (news : Option String) :
    TrendAnalysisResult :=
  let market := detectMarketType code
  let cfg := marketConfig market
  let r := { emptyResult code with market_type := market }
  if df.length < 20 then r
  else
    let latest := dfLatest df
    let prev := dfPrev df
    let r0 := baseResultOf df code
    if checkTrendFilter r0.trend_status then
      let reasons1 := [Msg.trendPass r0.trend_status]
      if cfg.bias_threshold ≤ pyAbs r0.bias_ma5 then
        { r0 with buy_signal := BuySignal.wait, signal_score := 40,
                  signal_reasons := reasons1,
                  risk_factors := [Msg.biasTooHigh r0.bias_ma5 cfg.bias_threshold r0.market_type] }
      else
        let reasons2 := reasons1 ++
          [if r0.bias_ma5 < 0 then Msg.biasPullback r0.bias_ma5 else Msg.biasSafe r0.bias_ma5]
        afterLayer2 r0 latest prev cfg news reasons2
    else
      { r0 with buy_signal := BuySignal.wait, signal_score := 0,
                signal_reasons := [Msg.trendFail],
                risk_factors := [Msg.noShort r0.trend_status] }

/-! ## Storage layer (storage.py)

One daily bar payload as handed to `save_daily_data` (dates are abstract
naturals ordered like calendar dates; `opn` stands for the `open` column,
which is a reserved word in Lean). -/

structure BarRow where
  date : Nat
  opn : ℚ
  high : ℚ
  low : ℚ
  close : ℚ
  volume : ℚ
  amount : ℚ
  pct_chg : ℚ
  ma5 : ℚ
  ma10 : ℚ
  ma20 : ℚ
  volume_ratio : ℚ
  macd : ℚ
  macd_signal : ℚ
  macd_hist : ℚ
  rsi : ℚ
  atr : ℚ
deriving DecidableEq, Repr

/-- A persisted `StockDaily` record: key `(code, date)`, the bar payload,
and the bookkeeping columns. -/
structure Rec where
  code : String
  bar : BarRow
  dataSource : String
  createdAt : Nat
  updatedAt : Nat
deriving DecidableEq, Repr

/-- Default bar payload, used only as the default of total list indexing. -/
def barDefault : BarRow :=
  { date := 0, opn := 0, high := 0, low := 0, close := 0, volume := 0, amount := 0,
    pct_chg := 0, ma5 := 0, ma10 := 0, ma20 := 0, volume_ratio := 0,
    macd := 0, macd_signal := 0, macd_hist := 0, rsi := 0, atr := 0 }

/-- Default record, used only as the default of total list indexing. -/
def recDefault : Rec :=
  { code := "", bar := barDefault, dataSource := "", createdAt := 0, updatedAt := 0 }

/-- Insert a record into a list sorted ascending by date (stable). -/
def insertByDate (r : Rec) : List Rec → List Rec
  | [] => [r]
  | x :: xs => if r.bar.date ≤ x.bar.date then r :: x :: xs else x :: insertByDate r xs

/-- Stable sort ascending by date (the `ORDER BY date` of the queries). -/
def sortByDate (l : List Rec) : List Rec :=
  l.foldr insertByDate []

/-- `DatabaseManager.get_all_data`: the rows of one symbol ordered ascending
by date, truncated to `limit` rows (`ORDER BY date LIMIT limit`). -/
def getAllData (db : List Rec) (code : String) (limit : Nat) : List Rec :=
  (sortByDate (db.filter (fun rec => rec.code == code))).take limit

/-- `DatabaseManager._analyze_ma_status` on the latest row. -/
def analyzeMaStatus (latest : Rec) : String :=
  let close := latest.bar.close
  let ma5 := latest.bar.ma5
  let ma10 := latest.bar.ma10
  let ma20 := latest.bar.ma20
  if close > ma5 ∧ ma5 > ma10 ∧ ma10 > ma20 ∧ ma20 > 0 then "多头排列 📈"
  else if close < ma5 ∧ ma5 < ma10 ∧ ma10 < ma20 ∧ ma20 > 0 then "空头排列 📉"
  else if close > ma5 ∧ ma5 > ma10 then "短期向好 🔼"
  else if close < ma5 ∧ ma5 < ma10 then "短期走弱 🔽"
  else "震荡整理 ➡️"

/-- Python `round(x, 2)` (modelled as round-half-up; the source rounds
half-to-even on floats, and no tie arises in the verified statements). -/
def round2 (x : ℚ) : ℚ :=
  (round (x * 100) : ℤ) / 100

/-- The analysis-context dictionary built by `get_analysis_context`. -/
structure AnalysisContext where
  code : String
  date : Nat
  today : BarRow
  yesterdayClose : ℚ
  yesterdayVolume : ℚ
  maStatus : String
  volumeChangeRatio : ℚ
  priceChangeRatio : ℚ
  indMacd : ℚ
  indMacdSignal : ℚ
  indMacdHist : ℚ
  indRsi : ℚ
  indAtr : ℚ
  raw : List Rec
deriving DecidableEq, Repr

/-- `DatabaseManager.get_analysis_context`: fetch up to `days` rows via
`get_all_data`, give up below 20 rows, else assemble the context from the
last row of the retrieved window. -/
def getAnalysisContext (db : List Rec) (code : String) (days : Nat) :
    Option AnalysisContext :=
  let data := getAllData db code days
  if data.length < 20 then none
  else
    let latest := data.getLastD recDefault
    let yesterday := if 2 ≤ data.length then data.getD (data.length - 2) recDefault else latest
    some
      { code := code, date := latest.bar.date, today := latest.bar,
        yesterdayClose := yesterday.bar.close, yesterdayVolume := yesterday.bar.volume,
        maStatus := analyzeMaStatus latest,
        volumeChangeRatio :=
          round2 (if yesterday.bar.volume > 0 then latest.bar.volume / yesterday.bar.volume else 1),
        priceChangeRatio := round2 latest.bar.pct_chg,
        indMacd := latest.bar.macd, indMacdSignal := latest.bar.macd_signal,
        indMacdHist := latest.bar.macd_hist, indRsi := latest.bar.rsi,
        indAtr := latest.bar.atr, raw := data }

/-- Key-membership test `(code, date)` used by the upsert. -/
def keyMem (db : List Rec) (code : String) (d : Nat) : Bool :=
  db.any (fun rec => rec.code == code && rec.bar.date == d)

/-- First record with the given `(code, date)` key. -/
def lookupRec (db : List Rec) (code : String) (d : Nat) : Option Rec :=
  db.find? (fun rec => rec.code == code && rec.bar.date == d)

/-- Overwrite of an existing record in `save_daily_data`: all non-key fields
take the payload values (the key date is equal under the match condition),
`data_source` is replaced and `updated_at` bumped to the call time. -/
def updFun (code source : String) (now : Nat) (row : BarRow) (rec : Rec) : Rec :=
  if rec.code == code && rec.bar.date == row.date then
    { rec with bar := row, dataSource := source, updatedAt := now }
  else rec

/-- One iteration of the `save_daily_data` loop: update the existing
`(code, date)` record or insert a fresh one. -/
def upsertRow (db : List Rec) (code source : String) (now : Nat) (row : BarRow) :
    List Rec :=
  if keyMem db code row.date then
    db.map (updFun code source now row)
  else
    db ++ [{ code := code, bar := row, dataSource := source, createdAt := now, updatedAt := now }]

/-- `DatabaseManager.save_daily_data`: upsert every payload row in order
(the returned count is the row count of the frame and is not modelled). -/
def saveDailyData (db : List Rec) (rows : List BarRow) (code source : String)
    (now : Nat) : List Rec :=
  rows.foldl (fun d r => upsertRow d code source now r) db

/-! ## Fetch manager (data_provider/base.py) -/

/-- Outcome of one fetcher's `get_daily_data` on the query: a normalized
series, or a raised `DataFetchError` / unexpected exception. -/
inductive FetchOutcome where
  | ok (rows : List BarRow)
  | err (msg : String)
deriving DecidableEq, Repr

/-- A configured fetcher, abstracted to its name and its outcome on the
query under consideration. -/
structure Fetcher where
  name : String
  outcome : FetchOutcome
deriving DecidableEq, Repr

/-- A fetcher that raises, or returns an empty frame: both advance the
manager to the next fetcher. -/
def fetchFailsOrEmpty (f : Fetcher) : Bool :=
  match f.outcome with
  | FetchOutcome.ok rows => rows.isEmpty
  | FetchOutcome.err _ => true

/-- `DataFetcherManager.get_daily_data`: walk the priority-ordered fetcher
list, return `(df, name)` on the first non-empty success, and `(None, None)`
when every fetcher fails or returns empty. -/
def managerGetDaily : List Fetcher → Option (List BarRow) × Option String
  | [] => (none, none)
  | f :: rest =>
    match f.outcome with
    | FetchOutcome.ok rows => if rows.isEmpty then managerGetDaily rest else (some rows, some f.name)
    | FetchOutcome.err _ => managerGetDaily rest

/-! ## Cache manager (utils/cache_manager.py) -/

/-- One cache entry `{timestamp, ttl, value}`. -/
structure CacheEntry (V : Type) where
  timestamp : Nat
  ttl : Nat
  value : V
deriving DecidableEq, Repr

/-- Two-tier cache state: the in-memory map and the on-disk files. -/
structure CacheState (V : Type) where
  mem : List (String × CacheEntry V)
  file : List (String × CacheEntry V)
deriving DecidableEq, Repr

/-- Lookup in an association list keyed by strings. -/
def kvLookup {V : Type} (k : String) : List (String × CacheEntry V) → Option (CacheEntry V)
  | [] => none
  | (k2, v) :: rest => if k2 == k then some v else kvLookup k rest

/-- Insert or replace in an association list keyed by strings. -/
def kvInsert {V : Type} (k : String) (v : CacheEntry V) :
    List (String × CacheEntry V) → List (String × CacheEntry V)
  | [] => [(k, v)]
  | (k2, v2) :: rest => if k2 == k then (k, v) :: rest else (k2, v2) :: kvInsert k v rest

/-- Remove a key from an association list (a Python dict / the cache
directory cannot hold duplicate keys, so removing every occurrence is the
faithful reading). -/
def kvErase {V : Type} (k : String) (l : List (String × CacheEntry V)) :
    List (String × CacheEntry V) :=
  l.filter (fun p => !(p.1 == k))

/-- `ttl = ttl or self.default_ttl`: `None` and the falsy `0` both select
the manager's default TTL. -/
def effTtl (ttlArg : Option Nat) (defaultTtl : Nat) : Nat :=
  match ttlArg with
  | none => defaultTtl
  | some t => if t == 0 then defaultTtl else t

/-- `CacheManager.set`: store `{timestamp := now, ttl, value}` in both tiers. -/
def cacheSet {V : Type} (st : CacheState V) (k : String) (v : V) (ttlArg : Option Nat)
    (now defaultTtl : Nat) : CacheState V :=
  let e : CacheEntry V := { timestamp := now, ttl := effTtl ttlArg defaultTtl, value := v }
  { mem := kvInsert k e st.mem, file := kvInsert k e st.file }

/-- File-tier half of `CacheManager.get`: a fresh file entry is promoted to
memory and returned; a stale one is unlinked; otherwise miss. -/
def cacheGetFile {V : Type} (st : CacheState V) (k : String) (ttl now : Nat) :
    Option V × CacheState V :=
  match kvLookup k st.file with
  | some e =>
    if now - e.timestamp ≤ ttl then
      (some e.value, { st with mem := kvInsert k e st.mem })
    else
      (none, { st with file := kvErase k st.file })
  | none => (none, st)

/-- `CacheManager.get`: expiry is judged against `effTtl ttlArg defaultTtl`
(the argument of `get`, not the TTL stored in the entry); a stale memory
entry is dropped before the file tier is consulted. -/
def cacheGet {V : Type} (st : CacheState V) (k : String) (ttlArg : Option Nat)
    (now defaultTtl : Nat) : Option V × CacheState V :=
  let ttl := effTtl ttlArg defaultTtl
  match kvLookup k st.mem with
  | some e =>
    if now - e.timestamp ≤ ttl then (some e.value, st)
    else cacheGetFile { st with mem := kvErase k st.mem } k ttl now
  | none => cacheGetFile st k ttl now

/-! ## Concrete inputs used by witnesses and counterexamples -/

/-- Last row of a bullish series that collects every Layer-3 bonus:
BULL trend, small bias, MACD golden cross (against a zero previous row),
oversold RSI, healthy ATR band, shrinking-volume pullback. -/
def rowFullBonus : Row :=
  { close := 100, ma5 := 99, ma10 := 98, ma20 := 97, volume_ratio := 1/2, pct_chg := -1,
    macd := 1, macd_signal := 0, macd_hist := 1, rsi := 20, atr := 2 }

/-- A 20-row frame ending in `rowFullBonus` (the filler rows are only read
through `len(df)` and `df.iloc[-2]`). -/
def dfFullBonus : List Row :=
  List.replicate 19 rowDefault ++ [rowFullBonus]

/-- Last row of a bullish series that earns no Layer-3 bonus: no golden
cross, overbought RSI, ATR percentage of zero, normal volume. -/
def rowNoBonus : Row :=
  { close := 101, ma5 := 100, ma10 := 99, ma20 := 98, volume_ratio := 1, pct_chg := 1,
    macd := 0, macd_signal := 1, macd_hist := -1, rsi := 75, atr := 0 }

/-- A 20-row frame ending in `rowNoBonus`. -/
def dfNoBonus : List Row :=
  List.replicate 19 rowDefault ++ [rowNoBonus]

/-- A 20-row frame whose trend status is CONSOLIDATION (all fields zero). -/
def dfFlat : List Row :=
  List.replicate 20 rowDefault

/-- A news text containing the severe negative keywords
`调查` / `立案` / `立案调查`. -/
def newsSevere : String := "公司被立案调查"

/-- Stored record number `i` for symbol `600519`: date `i + 1`, ascending. -/
def mkRec (i : Nat) : Rec :=
  { code := "600519",
    bar := { barDefault with date := i + 1, close := 10, volume := 1000, pct_chg := 1,
                             ma5 := 9, ma10 := 8, ma20 := 7 },
    dataSource := "Test", createdAt := 0, updatedAt := 0 }

/-- A store holding 25 rows for `600519`, dated 1..25. -/
def db25 : List Rec :=
  (List.range 25).map mkRec

/-- Payload bar dated 1. -/
def barOne : BarRow :=
  { barDefault with date := 1, close := 11, volume := 500 }

/-- Payload bar dated 2. -/
def barTwo : BarRow :=
  { barDefault with date := 2, close := 12, volume := 600 }

/-! ## Theorems -/

theorem kvLookup_kvInsert {V : Type} (k : String) (e : CacheEntry V)
    (l : List (String × CacheEntry V)) : kvLookup k (kvInsert k e l) = some e := by
  induction l with
  | nil => simp [kvInsert, kvLookup]
  | cons p rest ih =>
    obtain ⟨k2, v2⟩ := p
    by_cases h : k2 == k
    · simp [kvInsert, kvLookup, h]
    · simp only [kvInsert, h, Bool.false_eq_true, if_false, kvLookup, ih]

theorem kvLookup_kvErase {V : Type} (k : String)
    (l : List (String × CacheEntry V)) : kvLookup k (kvErase k l) = none := by
  induction l with
  | nil => simp [kvErase, kvLookup]
  | cons p rest ih =>
    obtain ⟨k2, v2⟩ := p
    by_cases h : k2 == k
    · simpa [kvErase, kvLookup, h] using ih
    · simpa [kvErase, kvLookup, h] using ih

/-- C9 (amended): after `set(k, v, ttl_set)` at time `t0`, a `get(k, ttl_get)`
at time `t1` judges freshness against the TTL of the `get` call (its argument,
or the manager default when absent or zero) — not against the stored TTL.
Within that window it returns `v`; past it, the memory entry and the cache
file are both deleted and the read misses. -/
theorem c9_cache_get_ttl {V : Type} (st : CacheState V) (k : String) (v : V)
    (ttlSet ttlGet : Option Nat) (t0 t1 defaultTtl : Nat) :
    (cacheGet (cacheSet st k v ttlSet t0 defaultTtl) k ttlGet t1 defaultTtl).1 =
      (if t1 - t0 ≤ effTtl ttlGet defaultTtl then some v else none) ∧
    kvLookup k (cacheGet (cacheSet st k v ttlSet t0 defaultTtl) k ttlGet t1 defaultTtl).2.mem =
      (if t1 - t0 ≤ effTtl ttlGet defaultTtl then
        some { timestamp := t0, ttl := effTtl ttlSet defaultTtl, value := v } else none) ∧
    kvLookup k (cacheGet (cacheSet st k v ttlSet t0 defaultTtl) k ttlGet t1 defaultTtl).2.file =
      (if t1 - t0 ≤ effTtl ttlGet defaultTtl then
        some { timestamp := t0, ttl := effTtl ttlSet defaultTtl, value := v } else none) := by
  by_cases h : t1 - t0 ≤ effTtl ttlGet defaultTtl
  · simp [cacheGet, cacheSet, cacheGetFile, kvLookup_kvInsert, h]
  · simp [cacheGet, cacheSet, cacheGetFile, kvLookup_kvInsert, kvLookup_kvErase, h]

/-- C9 counterexample: with a default TTL of 3600, `set("k", 42, ttl=10)` at
time 0 followed by `get("k")` at time 20 — that is, after the entry's stored
TTL of 10 has elapsed — still returns 42 and leaves the cache file in place,
because `get` measures freshness against its own TTL argument (here the
default), not the stored one. -/
theorem c9_counterexample :
    (cacheGet (cacheSet (⟨[], []⟩ : CacheState ℤ) "k" 42 (some 10) 0 3600) "k" none 20 3600).1 = some 42 ∧
    10 < 20 - (0 : Nat) ∧
    kvLookup "k" (cacheGet (cacheSet (⟨[], []⟩ : CacheState ℤ) "k" 42 (some 10) 0 3600) "k" none 20 3600).2.file ≠
      none := by
  with_unfolding_all decide

/-- C10: the decision engine treats a symbol as A-share exactly when the code
string has six characters, all ASCII digits; every other code — including
suffix-decorated A-share codes such as `600519.SH` — is treated as Hong Kong
and analysed under the relaxed HK parameters (bias threshold 6.0 instead of
5.0, and a wider healthy-ATR band). -/
theorem c10_market_detection :
    (∀ s : String, detectMarketType s = Market.aShare ↔
      (s.length = 6 ∧ s.data.all Char.isDigit = true)) ∧
    detectMarketType "600519.SH" = Market.hk ∧
    (marketConfig Market.aShare).bias_threshold = 5 ∧
    (marketConfig Market.hk).bias_threshold = 6 ∧
    (marketConfig Market.aShare).atr_min_pct = (marketConfig Market.hk).atr_min_pct ∧
    (marketConfig Market.aShare).atr_max_pct < (marketConfig Market.hk).atr_max_pct := by
  refine ⟨fun s => ?_, by with_unfolding_all decide, rfl, rfl, rfl, by with_unfolding_all decide⟩
  unfold detectMarketType pyIsDigit
  constructor
  · intro h
    by_cases hb : (s.length == 6 && (!s.data.isEmpty && s.data.all Char.isDigit)) = true
    · simp only [Bool.and_eq_true, beq_iff_eq] at hb
      exact ⟨hb.1, hb.2.2⟩
    · rw [if_neg hb] at h
      exact Market.noConfusion h
  · rintro ⟨h1, h2⟩
    have hne : s.data.isEmpty = false := by
      have hlen : s.data.length = 6 := h1
      cases hd : s.data with
      | nil => rw [hd] at hlen; simp at hlen
      | cons a l => simp [List.isEmpty]
    have hcond : (s.length == 6 && (!s.data.isEmpty && s.data.all Char.isDigit)) = true := by
      simp [h1, h2, hne]
    rw [if_pos hcond]


theorem checkAux_score (latest prev : Row) (r : TrendAnalysisResult) (base : ℤ)
    (cfg : MarketCfg) :
    (checkAux latest prev r base cfg).score =
      base
      + (if prev.macd ≤ prev.macd_signal ∧ latest.macd > latest.macd_signal then 10 else 0)
      + (if r.rsi < 30 then 15 else if r.rsi < 70 then 10 else 0)
      + (if cfg.atr_min_pct < r.atr_pct ∧ r.atr_pct < cfg.atr_max_pct then 5 else 0)
      + (if r.volume_status = VolumeStatus.shrinkVolumeDown then 10
         else if r.volume_status = VolumeStatus.heavyVolumeUp then 8 else 0) := by
  unfold checkAux
  simp only [Bool.and_eq_true, decide_eq_true_eq]
  split_ifs <;> omega

theorem checkAux_risks_atrHigh (latest prev : Row) (r : TrendAnalysisResult) (base : ℤ)
    (cfg : MarketCfg) (h : cfg.atr_max_pct ≤ r.atr_pct) :
    Msg.atrTooHigh r.atr_pct ∈ (checkAux latest prev r base cfg).risks := by
  have hband : ¬ (cfg.atr_min_pct < r.atr_pct ∧ r.atr_pct < cfg.atr_max_pct) := by
    rintro ⟨-, h2⟩
    exact absurd h (not_le.mpr h2)
  unfold checkAux
  simp only [Bool.and_eq_true, decide_eq_true_eq, ge_iff_le]
  split_ifs <;> simp_all

theorem checkAux_score_lb (latest prev : Row) (r : TrendAnalysisResult) (base : ℤ)
    (cfg : MarketCfg) : base ≤ (checkAux latest prev r base cfg).score := by
  rw [checkAux_score]
  split_ifs <;> omega

theorem checkAux_score_ub (latest prev : Row) (r : TrendAnalysisResult) (base : ℤ)
    (cfg : MarketCfg) : (checkAux latest prev r base cfg).score ≤ base + 40 := by
  rw [checkAux_score]
  split_ifs <;> omega

/-- C2 counterexample: the configured ATR upper bounds are 4.0 (A-share) and
6.0 (HK), not the 3.0 / 4.0 of the spec's parameter table. -/
theorem c2_counterexample :
    (marketConfig Market.aShare).atr_max_pct = 4 ∧
    ¬ (marketConfig Market.aShare).atr_max_pct = 3 ∧
    (marketConfig Market.hk).atr_max_pct = 6 ∧
    ¬ (marketConfig Market.hk).atr_max_pct = 4 := by
  with_unfolding_all decide

/-- C2 (amended): the market parameters are bias threshold 5.0 (A-share) /
6.0 (HK), ATR lower bound 1.0 for both, and ATR upper bound 4.0 (A-share) /
6.0 (HK); Layer 3 grants the +5 ATR bonus iff
`atr_min_pct < atr_pct < atr_max_pct` with those configured values, and an
ATR percentage at or above `atr_max_pct` contributes no score and only
appends a volatility risk. -/
theorem c2_market_params :
    (marketConfig Market.aShare).bias_threshold = 5 ∧
    (marketConfig Market.hk).bias_threshold = 6 ∧
    (marketConfig Market.aShare).atr_min_pct = 1 ∧
    (marketConfig Market.hk).atr_min_pct = 1 ∧
    (marketConfig Market.aShare).atr_max_pct = 4 ∧
    (marketConfig Market.hk).atr_max_pct = 6 ∧
    (∀ (latest prev : Row) (r : TrendAnalysisResult) (base : ℤ) (cfg : MarketCfg),
      (checkAux latest prev r base cfg).score =
        base
        + (if prev.macd ≤ prev.macd_signal ∧ latest.macd > latest.macd_signal then 10 else 0)
        + (if r.rsi < 30 then 15 else if r.rsi < 70 then 10 else 0)
        + (if cfg.atr_min_pct < r.atr_pct ∧ r.atr_pct < cfg.atr_max_pct then 5 else 0)
        + (if r.volume_status = VolumeStatus.shrinkVolumeDown then 10
           else if r.volume_status = VolumeStatus.heavyVolumeUp then 8 else 0) ∧
      (cfg.atr_max_pct ≤ r.atr_pct →
        Msg.atrTooHigh r.atr_pct ∈ (checkAux latest prev r base cfg).risks)) :=
  ⟨rfl, rfl, rfl, rfl, rfl, rfl, fun latest prev r base cfg =>
    ⟨checkAux_score latest prev r base cfg,
     fun h => checkAux_risks_atrHigh latest prev r base cfg h⟩⟩

/-- C2 witness: the amended statement applied at a result row whose ATR
percentage 5 sits at/above the A-share cap 4, discharging the hypothesis. -/
theorem c2_market_params_witness :
    (marketConfig Market.aShare).atr_max_pct ≤ (5 : ℚ) ∧
    Msg.atrTooHigh (5 : ℚ) ∈
      (checkAux rowDefault rowDefault { emptyResult "600519" with atr_pct := 5 } 70
        (marketConfig Market.aShare)).risks :=
  ⟨by with_unfolding_all decide,
   by
    have h := (c2_market_params.2.2.2.2.2.2 rowDefault rowDefault
      { emptyResult "600519" with atr_pct := 5 } 70 (marketConfig Market.aShare)).2
    exact h (by with_unfolding_all decide)⟩


theorem managerGetDaily_none_iff (fs : List Fetcher) :
    managerGetDaily fs = (none, none) ↔ ∀ f ∈ fs, fetchFailsOrEmpty f = true := by
  induction fs with
  | nil => simp [managerGetDaily]
  | cons f rest ih =>
    cases houtcome : f.outcome with
    | ok rows =>
      by_cases hemp : rows.isEmpty
      · simp [managerGetDaily, houtcome, hemp, ih, fetchFailsOrEmpty]
      · simp [managerGetDaily, houtcome, hemp, fetchFailsOrEmpty]
    | err m =>
      simp [managerGetDaily, houtcome, ih, fetchFailsOrEmpty]

theorem managerGetDaily_first_success (pre : List Fetcher) (f : Fetcher)
    (post : List Fetcher) (rows : List BarRow)
    (hpre : ∀ g ∈ pre, fetchFailsOrEmpty g = true)
    (hok : f.outcome = FetchOutcome.ok rows) (hne : rows ≠ []) :
    managerGetDaily (pre ++ f :: post) = (some rows, some f.name) := by
  induction pre with
  | nil =>
    have hemp : rows.isEmpty = false := by
      cases rows with
      | nil => exact absurd rfl hne
      | cons a l => rfl
    simp [managerGetDaily, hok, hemp]
  | cons g gs ih =>
    have hg : fetchFailsOrEmpty g = true := hpre g (by simp)
    have hgs : ∀ g2 ∈ gs, fetchFailsOrEmpty g2 = true := fun g2 h2 => hpre g2 (by simp [h2])
    cases hout : g.outcome with
    | ok grows =>
      have : grows.isEmpty = true := by
        unfold fetchFailsOrEmpty at hg
        rw [hout] at hg
        exact hg
      simpa [managerGetDaily, hout, this] using ih hgs
    | err m =>
      simpa [managerGetDaily, hout] using ih hgs

/-- C7 (amended): the fetch manager never raises; on the first fetcher whose
result is non-empty it returns `(series, source_name)`, and when every
configured fetcher fails or returns an empty result it returns
`(None, None)` — a null series together with a null (not empty-string)
source name. -/
theorem c7_manager_failover (fs : List Fetcher) :
    (managerGetDaily fs = (none, none) ↔ ∀ f ∈ fs, fetchFailsOrEmpty f = true) ∧
    (∀ (pre : List Fetcher) (f : Fetcher) (post : List Fetcher) (rows : List BarRow),
      fs = pre ++ f :: post →
      (∀ g ∈ pre, fetchFailsOrEmpty g = true) →
      f.outcome = FetchOutcome.ok rows → rows ≠ [] →
      managerGetDaily fs = (some rows, some f.name)) :=
  ⟨managerGetDaily_none_iff fs,
   fun pre f post rows hsplit hpre hok hne =>
     hsplit ▸ managerGetDaily_first_success pre f post rows hpre hok hne⟩

/-- C7 witness: a first fetcher that raises is skipped and the second,
non-empty one is returned with its source name; the theorem is applied with
its hypotheses discharged at this concrete configuration. -/
theorem c7_manager_failover_witness :
    managerGetDaily
      [{ name := "EfinanceFetcher", outcome := FetchOutcome.err "network error" },
       { name := "AkshareFetcher", outcome := FetchOutcome.ok [barOne] }] =
      (some [barOne], some "AkshareFetcher") :=
  (c7_manager_failover _).2
    [{ name := "EfinanceFetcher", outcome := FetchOutcome.err "network error" }]
    { name := "AkshareFetcher", outcome := FetchOutcome.ok [barOne] }
    [] [barOne] rfl (by with_unfolding_all decide) rfl (by with_unfolding_all decide)

/-- C7 counterexample: when the only fetcher fails, the manager returns
`(None, None)`; the claimed pair `(None, "")` — with an empty-string source
name — is a different value. -/
theorem c7_counterexample :
    managerGetDaily [{ name := "EfinanceFetcher", outcome := FetchOutcome.err "network error" }] =
      (none, none) ∧
    ((none, none) : Option (List BarRow) × Option String) ≠ (none, some "") := by
  with_unfolding_all decide

/-- C1 counterexample: a 20-row BULL frame collecting every Layer-3 bonus
(golden cross +10, oversold RSI +15, healthy ATR +5, shrink-volume pullback
+10) reaches score 110; supplying news that contains the severe keyword
`立案调查` routes the engine through the sentiment veto, which preserves the
unclamped score, so the returned `signal_score` is 110 > 100. -/
theorem c1_counterexample :
    (analyze dfFullBonus "600519" (some newsSevere)).signal_score = 110 ∧
    ¬ (analyze dfFullBonus "600519" (some newsSevere)).signal_score ≤ 100 ∧
    (analyze dfFullBonus "600519" (some newsSevere)).buy_signal = BuySignal.wait := by
  with_unfolding_all decide


theorem checkTrendFilter_eq_false (t : TrendStatus)
    (h1 : t ≠ TrendStatus.strongBull) (h2 : t ≠ TrendStatus.bull) :
    checkTrendFilter t = false := by
  cases t <;> first
    | rfl
    | exact absurd rfl h1
    | exact absurd rfl h2

theorem checkTrendFilter_eq_true (t : TrendStatus)
    (h : t = TrendStatus.strongBull ∨ t = TrendStatus.bull) :
    checkTrendFilter t = true := by
  rcases h with h | h <;> rw [h] <;> rfl

/-- C3: an input series of length at least 20 whose computed trend status is
neither STRONG_BULL nor BULL makes `analyze` return immediately from Layer 1:
buy signal WAIT, score 0, exactly one reason (the trend-filter failure),
exactly one risk (the status with the no-short-selling note), and the
sentiment layer untouched — so no Layer-3/4 reasons or bonuses exist. -/
theorem c3_trend_filter_fail (df : List Row) (code : String) (news : Option String)
    (h20 : 20 ≤ df.length)
    (hs : (baseResultOf df code).trend_status ≠ TrendStatus.strongBull)
    (hb : (baseResultOf df code).trend_status ≠ TrendStatus.bull) :
    (analyze df code news).buy_signal = BuySignal.wait ∧
    (analyze df code news).signal_score = 0 ∧
    (analyze df code news).signal_reasons = [Msg.trendFail] ∧
    (analyze df code news).risk_factors = [Msg.noShort (baseResultOf df code).trend_status] ∧
    (analyze df code news).sentiment_check = false := by
  have hfilter := checkTrendFilter_eq_false _ hs hb
  unfold analyze
  simp only [hfilter]
  rw [if_neg (by omega)]
  simp [baseResultOf, fillBasicData, emptyResult]

/-- C3 witness: an all-zero 20-row frame has CONSOLIDATION status, and the
theorem applied there yields the Layer-1 early return. -/
theorem c3_trend_filter_fail_witness :
    20 ≤ dfFlat.length ∧
    (baseResultOf dfFlat "600519").trend_status = TrendStatus.consolidation ∧
    (analyze dfFlat "600519" none).buy_signal = BuySignal.wait ∧
    (analyze dfFlat "600519" none).signal_score = 0 ∧
    (analyze dfFlat "600519" none).signal_reasons = [Msg.trendFail] := by
  refine ⟨by with_unfolding_all decide, by with_unfolding_all decide, ?_⟩
  have h := c3_trend_filter_fail dfFlat "600519" none
    (by with_unfolding_all decide) (by with_unfolding_all decide) (by with_unfolding_all decide)
  exact ⟨h.1, h.2.1, h.2.2.1⟩

/-- C4: an input that passes Layers 1 and 2 but earns no Layer-3 bonus (no
golden cross, RSI at or above 70, ATR percentage outside the healthy band,
volume neither SHRINK_VOLUME_DOWN nor HEAVY_VOLUME_UP), analysed without
news context, scores exactly 70 = 40 + 30, and the final mapping turns a
score of at least 70 into STRONG_BUY. -/
theorem c4_layer12_score_70 (df : List Row) (code : String)
    (h20 : 20 ≤ df.length)
    (ht : (baseResultOf df code).trend_status = TrendStatus.strongBull ∨
      (baseResultOf df code).trend_status = TrendStatus.bull)
    (hb : pyAbs (baseResultOf df code).bias_ma5 <
      (marketConfig (detectMarketType code)).bias_threshold)
    (hg : ¬ ((dfPrev df).macd ≤ (dfPrev df).macd_signal ∧
      (dfLatest df).macd > (dfLatest df).macd_signal))
    (hr : 70 ≤ (baseResultOf df code).rsi)
    (ha : ¬ ((marketConfig (detectMarketType code)).atr_min_pct <
        (baseResultOf df code).atr_pct ∧
      (baseResultOf df code).atr_pct < (marketConfig (detectMarketType code)).atr_max_pct))
    (hv1 : (baseResultOf df code).volume_status ≠ VolumeStatus.shrinkVolumeDown)
    (hv2 : (baseResultOf df code).volume_status ≠ VolumeStatus.heavyVolumeUp) :
    (analyze df code none).signal_score = 70 ∧
    (analyze df code none).buy_signal = BuySignal.strongBuy := by
  have hfilter := checkTrendFilter_eq_true _ ht
  have hscore : (checkAux (dfLatest df) (dfPrev df) (baseResultOf df code) 70
      (marketConfig (detectMarketType code))).score = 70 := by
    rw [checkAux_score]
    rw [if_neg hg, if_neg ha, if_neg hv1, if_neg hv2]
    rw [if_neg (not_lt.mpr (le_trans (by norm_num) hr)), if_neg (not_lt.mpr hr)]
    omega
  unfold analyze
  simp only [hfilter, if_true]
  rw [if_neg (by omega), if_neg (not_le.mpr hb)]
  unfold afterLayer2
  simp only [hscore]
  unfold finalDecision
  norm_num [pyMin]

/-- C4 witness: a concrete 20-row BULL frame with bias 1 percent and no
Layer-3 trigger; the theorem applied there yields score 70 and STRONG_BUY. -/
theorem c4_layer12_score_70_witness :
    20 ≤ dfNoBonus.length ∧
    (baseResultOf dfNoBonus "600519").trend_status = TrendStatus.bull ∧
    (analyze dfNoBonus "600519" none).signal_score = 70 ∧
    (analyze dfNoBonus "600519" none).buy_signal = BuySignal.strongBuy := by
  refine ⟨by with_unfolding_all decide, by with_unfolding_all decide, ?_, ?_⟩
  all_goals
    have h := c4_layer12_score_70 dfNoBonus "600519"
      (by with_unfolding_all decide)
      (Or.inr (by with_unfolding_all decide))
      (by with_unfolding_all decide)
      (by with_unfolding_all decide)
      (by with_unfolding_all decide)
      (by with_unfolding_all decide)
      (by with_unfolding_all decide)
      (by with_unfolding_all decide)
  · exact h.1
  · exact h.2

theorem sentFilter_fail_iff (news : String) (cur : ℤ) :
    (checkSentimentFilter news cur).1 = false ↔
      ((negativesFound news).any (fun kv => kv.2 == "严重") = true ∨
        3 ≤ (negativesFound news).length) := by
  unfold checkSentimentFilter
  dsimp only
  by_cases h : (((negativesFound news).any fun kv => kv.2 == "严重")
      || decide ((negativesFound news).length ≥ 3)) = true
  · rw [if_pos h]
    simp only [Bool.or_eq_true, decide_eq_true_eq, ge_iff_le] at h
    exact ⟨fun _ => h, fun _ => rfl⟩
  · rw [if_neg h]
    simp only [Bool.or_eq_true, decide_eq_true_eq, ge_iff_le, not_or] at h
    constructor
    · intro hfalse
      exfalso
      revert hfalse
      split_ifs <;> simp
    · rintro (hc | hc)
      · exact absurd hc h.1
      · exact absurd hc h.2

theorem sentFilter_fail_result (news : String) (cur : ℤ)
    (h : (checkSentimentFilter news cur).1 = false) :
    (checkSentimentFilter news cur).2.result = "重大利空" := by
  revert h
  unfold checkSentimentFilter
  dsimp only
  split_ifs <;> simp

theorem sentFilter_score_range (news : String) (cur : ℤ) :
    0 ≤ (checkSentimentFilter news cur).2.score ∧
      (checkSentimentFilter news cur).2.score ≤ 5 := by
  unfold checkSentimentFilter
  dsimp only
  split_ifs <;> simp

/-- C5: with news supplied and Layers 1–2 passed, the sentiment veto fires
iff some negative keyword tagged severe (`严重`) occurs as a substring of
the news text or at least three negative keywords occur in total; on veto
the engine returns WAIT with the pre-Layer-4 score preserved (Layer-3
bonuses included) and the sentiment risks appended after the Layer-3 risks. -/
theorem c5_sentiment_veto (df : List Row) (code : String) (ctx : String)
    (h20 : 20 ≤ df.length)
    (ht : (baseResultOf df code).trend_status = TrendStatus.strongBull ∨
      (baseResultOf df code).trend_status = TrendStatus.bull)
    (hb : pyAbs (baseResultOf df code).bias_ma5 <
      (marketConfig (detectMarketType code)).bias_threshold) :
    ((checkSentimentFilter ctx (auxOf df code).score).1 = false ↔
      ((negativesFound ctx).any (fun kv => kv.2 == "严重") = true ∨
        3 ≤ (negativesFound ctx).length)) ∧
    ((checkSentimentFilter ctx (auxOf df code).score).1 = false →
      (analyze df code (some ctx)).buy_signal = BuySignal.wait ∧
      (analyze df code (some ctx)).signal_score = (auxOf df code).score ∧
      (analyze df code (some ctx)).risk_factors =
        (auxOf df code).risks ++ (checkSentimentFilter ctx (auxOf df code).score).2.risks ∧
      (analyze df code (some ctx)).sentiment_result = "重大利空") := by
  refine ⟨sentFilter_fail_iff ctx _, fun hfail => ?_⟩
  have hfail2 : (checkSentimentFilter ctx (checkAux (dfLatest df) (dfPrev df)
      (baseResultOf df code) 70 (marketConfig (detectMarketType code))).score).1 = false := hfail
  have hfilter := checkTrendFilter_eq_true _ ht
  unfold analyze
  simp only [hfilter, if_true]
  rw [if_neg (by omega), if_neg (not_le.mpr hb)]
  unfold afterLayer2
  dsimp only
  rw [if_neg (by rw [hfail2]; simp)]
  exact ⟨rfl, rfl, rfl, sentFilter_fail_result ctx _ hfail2⟩

/-- C5 witness: on the full-bonus BULL frame with news containing the severe
keyword `立案调查`, the theorem's hypotheses hold and the veto fires with the
Layer-3 score preserved. -/
theorem c5_sentiment_veto_witness :
    (checkSentimentFilter newsSevere (auxOf dfFullBonus "600519").score).1 = false ∧
    (analyze dfFullBonus "600519" (some newsSevere)).buy_signal = BuySignal.wait ∧
    (analyze dfFullBonus "600519" (some newsSevere)).signal_score =
      (auxOf dfFullBonus "600519").score ∧
    (analyze dfFullBonus "600519" (some newsSevere)).sentiment_result = "重大利空" := by
  have hfail : (checkSentimentFilter newsSevere (auxOf dfFullBonus "600519").score).1 = false := by
    with_unfolding_all decide
  have h := (c5_sentiment_veto dfFullBonus "600519" newsSevere
    (by with_unfolding_all decide)
    (Or.inr (by with_unfolding_all decide))
    (by with_unfolding_all decide)).2 hfail
  exact ⟨hfail, h.1, h.2.1, h.2.2.2⟩

theorem afterLayer2_score_range (r : TrendAnalysisResult) (latest prev : Row)
    (cfg : MarketCfg) (news : Option String) (reasons2 : List Msg) :
    0 ≤ (afterLayer2 r latest prev cfg news reasons2).signal_score ∧
    (afterLayer2 r latest prev cfg news reasons2).signal_score ≤ 110 ∧
    ((afterLayer2 r latest prev cfg news reasons2).sentiment_result ≠ "重大利空" →
      (afterLayer2 r latest prev cfg news reasons2).signal_score ≤ 100) := by
  have hlb := checkAux_score_lb latest prev r 70 cfg
  have hub := checkAux_score_ub latest prev r 70 cfg
  unfold afterLayer2
  cases news with
  | none =>
    dsimp only
    unfold finalDecision pyMin
    dsimp only
    split_ifs <;> exact ⟨by omega, by omega, fun _ => by omega⟩
  | some ctx =>
    dsimp only
    have hs := sentFilter_score_range ctx (checkAux latest prev r 70 cfg).score
    by_cases hp : (checkSentimentFilter ctx (checkAux latest prev r 70 cfg).score).1 = true
    · rw [if_pos hp]
      unfold finalDecision pyMin
      dsimp only
      split_ifs <;> exact ⟨by omega, by omega, fun _ => by omega⟩
    · rw [if_neg hp]
      dsimp only
      have hres := sentFilter_fail_result ctx _ (Bool.eq_false_iff.mpr hp)
      exact ⟨by omega, by omega, fun hneq => absurd hres hneq⟩

/-- C1 (amended): `signal_score` always lies in [0, 110], and lies in
[0, 100] on every return path except the sentiment veto (where the engine
preserves the unclamped Layer-3 score, which can reach 110): whenever the
returned `sentiment_result` is not the veto tag `重大利空`, the score is at
most 100. -/
theorem c1_signal_score_range (df : List Row) (code : String) (news : Option String) :
    0 ≤ (analyze df code news).signal_score ∧
    (analyze df code news).signal_score ≤ 110 ∧
    ((analyze df code news).sentiment_result ≠ "重大利空" →
      (analyze df code news).signal_score ≤ 100) := by
  unfold analyze
  dsimp only
  split_ifs with h1 h2 h3 h4
  · refine ⟨?_, ?_, fun _ => ?_⟩ <;> norm_num [emptyResult]
  · refine ⟨?_, ?_, fun _ => ?_⟩ <;> norm_num
  · exact afterLayer2_score_range _ _ _ _ _ _
  · exact afterLayer2_score_range _ _ _ _ _ _
  · refine ⟨?_, ?_, fun _ => ?_⟩ <;> norm_num

/-- C1 witness: the amended bound applied to the concrete no-bonus BULL frame
(no news), discharging the non-veto hypothesis of the third conjunct. -/
theorem c1_signal_score_range_witness :
    0 ≤ (analyze dfNoBonus "600519" none).signal_score ∧
    (analyze dfNoBonus "600519" none).signal_score ≤ 110 ∧
    (analyze dfNoBonus "600519" none).signal_score ≤ 100 :=
  ⟨(c1_signal_score_range dfNoBonus "600519" none).1,
   (c1_signal_score_range dfNoBonus "600519" none).2.1,
   (c1_signal_score_range dfNoBonus "600519" none).2.2 (by with_unfolding_all decide)⟩

theorem analyzeMaStatus_mem_labels (rec : Rec) :
    analyzeMaStatus rec ∈
      (["多头排列 📈", "空头排列 📉", "短期向好 🔼", "短期走弱 🔽", "震荡整理 ➡️"] :
        List String) := by
  unfold analyzeMaStatus
  dsimp only
  split_ifs <;> simp

/-- C6 (amended): `get_analysis_context(code, days)` returns null exactly when
the retrieved window — the first (oldest by date) `days` stored rows for the
symbol, not the most recent ones — holds fewer than 20 rows; otherwise it
returns a context assembled from that window, whose `date`/`today` are its
last row, whose `ma_status` is one of the five textual labels, and whose
change ratios and indicators come from that row. -/
theorem c6_analysis_context (db : List Rec) (code : String) (days : Nat) :
    (getAnalysisContext db code days = none ↔ (getAllData db code days).length < 20) ∧
    (∀ ctx, getAnalysisContext db code days = some ctx →
      ctx.maStatus ∈
        (["多头排列 📈", "空头排列 📉", "短期向好 🔼", "短期走弱 🔽", "震荡整理 ➡️"] :
          List String) ∧
      ctx.raw = getAllData db code days ∧
      ctx.date = ((getAllData db code days).getLastD recDefault).bar.date ∧
      ctx.today = ((getAllData db code days).getLastD recDefault).bar ∧
      ctx.priceChangeRatio =
        round2 ((getAllData db code days).getLastD recDefault).bar.pct_chg ∧
      ctx.indRsi = ((getAllData db code days).getLastD recDefault).bar.rsi) := by
  unfold getAnalysisContext
  dsimp only
  by_cases h : (getAllData db code days).length < 20
  · rw [if_pos h]
    exact ⟨⟨fun _ => h, fun _ => rfl⟩, fun ctx hctx => Option.noConfusion hctx⟩
  · rw [if_neg h]
    refine ⟨⟨fun hcon => Option.noConfusion hcon, fun hlt => absurd hlt h⟩, ?_⟩
    intro ctx hctx
    obtain rfl : _ = ctx := Option.some.inj hctx
    exact ⟨analyzeMaStatus_mem_labels _, rfl, rfl, rfl, rfl, rfl⟩

/-- C6 witness: the amended statement applied to the 25-row store at window
60 (25 retrieved rows, context present) and at window 10 (10 retrieved rows,
null). -/
theorem c6_analysis_context_witness :
    getAnalysisContext db25 "600519" 10 = none ∧
    (getAnalysisContext db25 "600519" 60 ≠ none) := by
  constructor
  · exact (c6_analysis_context db25 "600519" 10).1.mpr (by with_unfolding_all decide)
  · intro hnone
    have := (c6_analysis_context db25 "600519" 60).1.mp hnone
    revert this
    with_unfolding_all decide

/-- C6 counterexample: 25 rows (dates 1..25) are stored for `600519`, yet
with `days = 5` the context is null although at least 20 rows are stored —
because only `min(days, stored)` rows are retrieved — and with `days = 20`
the context is assembled from the oldest 20 rows: its date is 20, not the
most recent stored date 25. -/
theorem c6_counterexample :
    db25.length = 25 ∧ (20 : Nat) ≤ 25 ∧
    getAnalysisContext db25 "600519" 5 = none ∧
    (getAnalysisContext db25 "600519" 20).map (fun c => c.date) = some 20 ∧
    (db25.map (fun rec => rec.bar.date)).contains 25 = true ∧ (20 : Nat) ≠ 25 := by
  with_unfolding_all decide

theorem updFun_code (c s : String) (t : Nat) (row : BarRow) (rec : Rec) :
    (updFun c s t row rec).code = rec.code := by
  unfold updFun
  split_ifs <;> rfl

theorem updFun_date (c s : String) (t : Nat) (row : BarRow) (rec : Rec) :
    (updFun c s t row rec).bar.date = rec.bar.date := by
  unfold updFun
  split_ifs with h
  · simp only [Bool.and_eq_true, beq_iff_eq] at h
    exact h.2.symm
  · rfl

theorem saveDailyData_cons (db : List Rec) (r : BarRow) (rs : List BarRow)
    (c s : String) (t : Nat) :
    saveDailyData db (r :: rs) c s t = saveDailyData (upsertRow db c s t r) rs c s t := rfl

theorem keyMem_map_updFun (db : List Rec) (c s : String) (t : Nat) (row : BarRow)
    (c2 : String) (d : Nat) :
    keyMem (db.map (updFun c s t row)) c2 d = keyMem db c2 d := by
  unfold keyMem
  induction db with
  | nil => rfl
  | cons x xs ih => simp only [List.map_cons, List.any_cons, ih, updFun_code, updFun_date]

theorem keyMem_upsertRow (db : List Rec) (c s : String) (t : Nat) (row : BarRow) (d : Nat) :
    keyMem (upsertRow db c s t row) c d = (keyMem db c d || (row.date == d)) := by
  unfold upsertRow
  split_ifs with h
  · rw [keyMem_map_updFun]
    by_cases hd : row.date = d
    · subst hd
      rw [h]
      simp
    · rw [beq_eq_false_iff_ne.mpr hd, Bool.or_false]
  · unfold keyMem
    rw [List.any_append]
    simp

theorem keyMem_saveDailyData_mono (rows : List BarRow) (c s : String) (t d : Nat) :
    ∀ db : List Rec, keyMem db c d = true →
      keyMem (saveDailyData db rows c s t) c d = true := by
  induction rows with
  | nil => exact fun db h => h
  | cons r rs ih =>
    intro db h
    rw [saveDailyData_cons]
    apply ih
    rw [keyMem_upsertRow, h, Bool.true_or]

theorem keyMem_saveDailyData_self (rows : List BarRow) (c s : String) (t : Nat) :
    ∀ db : List Rec, ∀ r ∈ rows, keyMem (saveDailyData db rows c s t) c r.date = true := by
  induction rows with
  | nil => intro db r hr; cases hr
  | cons r0 rs ih =>
    intro db r hr
    rw [saveDailyData_cons]
    rcases List.mem_cons.mp hr with rfl | hr2
    · apply keyMem_saveDailyData_mono
      rw [keyMem_upsertRow]
      simp
    · exact ih (upsertRow db c s t r0) r hr2

theorem length_upsertRow (db : List Rec) (c s : String) (t : Nat) (row : BarRow) :
    (upsertRow db c s t row).length =
      if keyMem db c row.date then db.length else db.length + 1 := by
  unfold upsertRow
  split_ifs with h <;> simp

theorem length_saveDailyData_of_mem (rows : List BarRow) (c s : String) (t : Nat) :
    ∀ db : List Rec, (∀ r ∈ rows, keyMem db c r.date = true) →
      (saveDailyData db rows c s t).length = db.length := by
  induction rows with
  | nil => intro db _; rfl
  | cons r0 rs ih =>
    intro db h
    rw [saveDailyData_cons]
    have h0 : keyMem db c r0.date = true := h r0 (List.mem_cons_self r0 rs)
    have hlen : (upsertRow db c s t r0).length = db.length := by
      rw [length_upsertRow, if_pos h0]
    rw [ih (upsertRow db c s t r0) ?hall, hlen]
    case hall =>
      intro r hr
      rw [keyMem_upsertRow, h r (List.mem_cons_of_mem r0 hr), Bool.true_or]

theorem findP_cons_pos (p : Rec → Bool) (a : Rec) (l : List Rec) (h : p a = true) :
    List.find? p (a :: l) = some a := by
  simp [List.find?, h]

theorem findP_cons_neg (p : Rec → Bool) (a : Rec) (l : List Rec) (h : p a = false) :
    List.find? p (a :: l) = List.find? p l := by
  simp [List.find?, h]

theorem find?_map_updFun (db : List Rec) (c s : String) (t : Nat) (row : BarRow)
    (c2 : String) (d : Nat) :
    (db.map (updFun c s t row)).find? (fun rec => rec.code == c2 && rec.bar.date == d) =
      (db.find? (fun rec => rec.code == c2 && rec.bar.date == d)).map (updFun c s t row) := by
  induction db with
  | nil => rfl
  | cons x xs ih =>
    cases hp : ((fun rec => rec.code == c2 && rec.bar.date == d) x) with
    | true =>
      have hp2 : ((fun rec => rec.code == c2 && rec.bar.date == d) (updFun c s t row x)) = true := by
        dsimp only
        rw [updFun_code, updFun_date]
        exact hp
      rw [List.map_cons, findP_cons_pos _ _ _ hp2, findP_cons_pos _ _ _ hp]
      rfl
    | false =>
      have hp2 : ((fun rec => rec.code == c2 && rec.bar.date == d) (updFun c s t row x)) = false := by
        dsimp only
        rw [updFun_code, updFun_date]
        exact hp
      rw [List.map_cons, findP_cons_neg _ _ _ hp2, findP_cons_neg _ _ _ hp, ih]

theorem find?_append_rec (l1 l2 : List Rec) (p : Rec → Bool) :
    (l1 ++ l2).find? p =
      (match l1.find? p with
       | some a => some a
       | none => l2.find? p) := by
  induction l1 with
  | nil => rfl
  | cons x xs ih =>
    cases hp : p x with
    | true => rw [List.cons_append, findP_cons_pos _ _ _ hp, findP_cons_pos _ _ _ hp]
    | false => rw [List.cons_append, findP_cons_neg _ _ _ hp, findP_cons_neg _ _ _ hp, ih]

theorem lookupRec_of_keyMem_false (db : List Rec) (c : String) (d : Nat)
    (h : keyMem db c d = false) : lookupRec db c d = none := by
  unfold lookupRec
  rw [List.find?_eq_none]
  intro x hx
  unfold keyMem at h
  have := List.any_eq_false.mp h x hx
  simpa using this

theorem lookupRec_of_keyMem_true (db : List Rec) (c : String) (d : Nat)
    (h : keyMem db c d = true) : ∃ rec, lookupRec db c d = some rec := by
  cases hf : lookupRec db c d with
  | some rec => exact ⟨rec, rfl⟩
  | none =>
    exfalso
    unfold lookupRec at hf
    rw [List.find?_eq_none] at hf
    unfold keyMem at h
    obtain ⟨x, hx, hp⟩ := List.any_eq_true.mp h
    exact hf x hx hp

theorem lookupRec_upsertRow_self (db : List Rec) (c s : String) (t : Nat) (row : BarRow) :
    ∃ rec, lookupRec (upsertRow db c s t row) c row.date = some rec ∧
      rec.bar = row ∧ rec.dataSource = s ∧ rec.updatedAt = t := by
  unfold upsertRow
  split_ifs with h
  · obtain ⟨rec0, hrec0⟩ := lookupRec_of_keyMem_true db c row.date h
    unfold lookupRec at hrec0
    have hp0 := List.find?_some hrec0
    have hp : (rec0.code == c && rec0.bar.date == row.date) = true := hp0
    have hupd : updFun c s t row rec0 =
        { rec0 with bar := row, dataSource := s, updatedAt := t } := by
      unfold updFun
      rw [if_pos hp]
    unfold lookupRec
    rw [find?_map_updFun, hrec0]
    exact ⟨updFun c s t row rec0, rfl, by rw [hupd], by rw [hupd], by rw [hupd]⟩
  · unfold lookupRec
    rw [find?_append_rec]
    have hnone : List.find? (fun rec => rec.code == c && rec.bar.date == row.date) db = none :=
      lookupRec_of_keyMem_false db c row.date (Bool.eq_false_iff.mpr h)
    rw [hnone]
    refine ⟨{ code := c, bar := row, dataSource := s, createdAt := t, updatedAt := t },
      ?_, rfl, rfl, rfl⟩
    exact findP_cons_pos _ _ _ (by simp)

theorem lookupRec_upsertRow_ne (db : List Rec) (c s : String) (t : Nat) (row : BarRow)
    (d : Nat) (hne : row.date ≠ d) :
    lookupRec (upsertRow db c s t row) c d = lookupRec db c d := by
  unfold upsertRow
  split_ifs with h
  · unfold lookupRec
    rw [find?_map_updFun]
    cases hf : List.find? (fun rec => rec.code == c && rec.bar.date == d) db with
    | none => rfl
    | some rec0 =>
      have hp0 := List.find?_some hf
      have hp : (rec0.code == c && rec0.bar.date == d) = true := hp0
      simp only [Bool.and_eq_true, beq_iff_eq] at hp
      have : updFun c s t row rec0 = rec0 := by
        unfold updFun
        rw [if_neg]
        rw [hp.2]
        simp only [Bool.and_eq_true, beq_iff_eq]
        rintro ⟨-, hdd⟩
        exact hne hdd.symm
      rw [show Option.map (updFun c s t row) (some rec0) = some (updFun c s t row rec0) from rfl,
        this]
  · unfold lookupRec
    rw [find?_append_rec]
    cases hf : List.find? (fun rec => rec.code == c && rec.bar.date == d) db with
    | none =>
      rw [List.find?_cons_of_neg, List.find?_nil]
      simp only [Bool.and_eq_true, beq_iff_eq]
      rintro ⟨-, hdd⟩
      exact hne hdd
    | some rec0 => rfl

theorem lookupRec_saveDailyData_ne (rows : List BarRow) (c s : String) (t d : Nat)
    (h : ∀ r ∈ rows, r.date ≠ d) :
    ∀ db : List Rec, lookupRec (saveDailyData db rows c s t) c d = lookupRec db c d := by
  induction rows with
  | nil => intro db; rfl
  | cons r0 rs ih =>
    intro db
    rw [saveDailyData_cons]
    rw [ih (fun r hr => h r (List.mem_cons_of_mem r0 hr)) (upsertRow db c s t r0)]
    exact lookupRec_upsertRow_ne db c s t r0 d (h r0 (List.mem_cons_self r0 rs))

theorem lookupRec_saveDailyData_self (rows : List BarRow) (c s : String) (t : Nat) :
    ∀ db : List Rec, (rows.map (fun r => r.date)).Nodup →
      ∀ r ∈ rows, ∃ rec, lookupRec (saveDailyData db rows c s t) c r.date = some rec ∧
        rec.bar = r ∧ rec.dataSource = s ∧ rec.updatedAt = t := by
  induction rows with
  | nil => intro db _ r hr; cases hr
  | cons r0 rs ih =>
    intro db hnd r hr
    rw [saveDailyData_cons]
    rcases List.mem_cons.mp hr with rfl | hr2
    · obtain ⟨rec, hrec, hbar, hsrc, hupd⟩ := lookupRec_upsertRow_self db c s t r
      have hne : ∀ r2 ∈ rs, r2.date ≠ r.date := by
        intro r2 h2 heq
        have hmem : r.date ∈ rs.map (fun r => r.date) := by
          rw [← heq]
          exact List.mem_map_of_mem (fun r => r.date) h2
        exact (List.nodup_cons.mp hnd).1 hmem
      rw [lookupRec_saveDailyData_ne rs c s t r.date hne (upsertRow db c s t r)]
      exact ⟨rec, hrec, hbar, hsrc, hupd⟩
    · exact ih (upsertRow db c s t r0) (List.nodup_cons.mp hnd).2 r hr2

/-- C8: the storage upsert is idempotent — saving the identical frame twice
leaves the row count unchanged after the second call, and for every payload
row the stored `(code, date)` record carries exactly the second payload's
non-key fields, with `data_source` rewritten and `updated_at` bumped to the
second call's time. -/
theorem c8_save_idempotent (db : List Rec) (rows : List BarRow) (code source : String)
    (t1 t2 : Nat) (hnd : (rows.map (fun r => r.date)).Nodup) :
    (saveDailyData (saveDailyData db rows code source t1) rows code source t2).length =
      (saveDailyData db rows code source t1).length ∧
    ∀ r ∈ rows, ∃ rec,
      lookupRec (saveDailyData (saveDailyData db rows code source t1) rows code source t2)
        code r.date = some rec ∧
      rec.bar = r ∧ rec.dataSource = source ∧ rec.updatedAt = t2 := by
  constructor
  · exact length_saveDailyData_of_mem rows code source t2 _
      (fun r hr => keyMem_saveDailyData_self rows code source t1 db r hr)
  · exact fun r hr =>
      lookupRec_saveDailyData_self rows code source t2 _ hnd r hr

/-- C8 witness: saving the two-bar frame `[barOne, barTwo]` twice into an
empty store keeps the row count at 2 and stores bar 2 with `updated_at`
equal to the second call's timestamp. -/
theorem c8_save_idempotent_witness :
    (saveDailyData (saveDailyData [] [barOne, barTwo] "600519" "Test" 1) [barOne, barTwo]
      "600519" "Test" 2).length =
      (saveDailyData ([] : List Rec) [barOne, barTwo] "600519" "Test" 1).length ∧
    ∃ rec,
      lookupRec (saveDailyData (saveDailyData [] [barOne, barTwo] "600519" "Test" 1)
        [barOne, barTwo] "600519" "Test" 2) "600519" barTwo.date = some rec ∧
      rec.bar = barTwo ∧ rec.dataSource = "Test" ∧ rec.updatedAt = 2 := by
  have h := c8_save_idempotent [] [barOne, barTwo] "600519" "Test" 1 2
    (by with_unfolding_all decide)
  exact ⟨h.1, h.2 barTwo (by simp)⟩

end ISD
